import Mathlib

/-!
Verification development for `neuralpredictors/layers/readouts/multi_readout.py`.

The file shallowly embeds the two classes of that module, `MultiReadoutBase`
and `MultiReadoutSharedParametersBase`, as Lean functions.  Python dictionaries
become association lists over `String` keys (a Python `dict` has unique keys and
preserves insertion order, which an association list models exactly), Python
runtime values become the inductive `PyVal`, and Python exceptions become an
explicit `Except PyError` result.  Collaborator classes that are outside this
source fragment (the per-dataset readout sub-modules and `ClonedReadout`) are
modelled from the specification's collaborator contract and marked as such in
their doc comments.
-/

/-- Python runtime values, as far as this module manipulates them: `None`,
booleans, numbers, strings, lists, string-keyed dictionaries, and references to
an attribute of a readout registered in the surrounding `ModuleDict`
(`self[key].attr`, e.g. the anchor readout's `mu_transform`). -/
inductive PyVal : Type where
  | none : PyVal
  | bool : Bool → PyVal
  | nat : Nat → PyVal
  | str : String → PyVal
  | list : List PyVal → PyVal
  | dict : List (String × PyVal) → PyVal
  | attrRef : String → String → PyVal
deriving Repr

/-- Python exceptions raised by this module: `KeyError` (failed dictionary or
`ModuleDict` lookups and the explicit `raise KeyError(...)`), `TypeError`
(subscripting or unpacking a non-eligible object), `ValueError` (the explicit
`raise ValueError(...)`), and `NameError` (reading an unbound local). -/
inductive PyError : Type where
  | keyError : String → PyError
  | typeError : String → PyError
  | valueError : String → PyError
  | nameError : String → PyError
deriving Repr, DecidableEq

/-- First-match lookup in an association list (Python `d[key]` on a `dict`,
which has unique keys). -/
def alookup {α : Type} : List (String × α) → String → Option α
  | [], _ => Option.none
  | p :: rest, key => if p.1 = key then some p.2 else alookup rest key

/-- Python `key in d`. -/
def hasKey {α : Type} (l : List (String × α)) (key : String) : Bool :=
  (alookup l key).isSome

/-- Python `d[key] = v`: replace the value in place if the key is present,
append the pair otherwise (a `dict` keeps the original insertion position on
re-assignment and appends new keys at the end). -/
def setKey {α : Type} : List (String × α) → String → α → List (String × α)
  | [], key, v => [(key, v)]
  | p :: rest, key, v => if p.1 = key then (key, v) :: rest else p :: setKey rest key v

/-- Removal of a key (the effect of Python `del d[key]` when the key is
present; on a `dict` with unique keys removing all occurrences agrees with
removing the one occurrence). -/
def eraseKey {α : Type} : List (String × α) → String → List (String × α)
  | [], _ => []
  | p :: rest, key => if p.1 = key then eraseKey rest key else p :: eraseKey rest key

/-- A Python keyword-argument dictionary. -/
abbrev Kwargs := List (String × PyVal)

/-- Python `d[key]` as a fallible operation: `KeyError` when the key is
absent. -/
def getItem (d : Kwargs) (key : String) : Except PyError PyVal :=
  match alookup d key with
  | some v => Except.ok v
  | Option.none => Except.error (PyError.keyError key)

/-- Python `del d[key]`: `KeyError` when the key is absent. -/
def delItem (d : Kwargs) (key : String) : Except PyError Kwargs :=
  if hasKey d key then Except.ok (eraseKey d key) else Except.error (PyError.keyError key)

/-- Python truthiness of a value, as used in `if readout_kwargs[...]:`. -/
def PyVal.truthy : PyVal → Bool
  | PyVal.none => false
  | PyVal.bool b => b
  | PyVal.nat n => decide (n ≠ 0)
  | PyVal.str s => decide (s ≠ "")
  | PyVal.list l => !l.isEmpty
  | PyVal.dict d => !d.isEmpty
  | PyVal.attrRef _ _ => true

/-- Python `v == "c"` for a string literal `"c"`: true exactly when `v` is that
string (no non-string value of this module compares equal to a string). -/
def pyEqStr : PyVal → String → Bool
  | PyVal.str s, c => s = c
  | _, _ => false

/-- Python `str(v)` as interpolated by `"...".format(v)`.  Scalar values are
rendered exactly; the rendering of containers is abbreviated (the module only
ever formats the `grid_mean_predictor_type` value, a string in every
documented configuration). -/
def PyVal.display : PyVal → String
  | PyVal.none => "None"
  | PyVal.bool true => "True"
  | PyVal.bool false => "False"
  | PyVal.nat n => toString n
  | PyVal.str s => s
  | PyVal.list _ => "[...]"
  | PyVal.dict _ => "\x7b...\x7d"
  | PyVal.attrRef k a => "<attribute " ++ a ++ " of module " ++ k ++ ">"

/-- Python subscription `v[key]` with a string key on an arbitrary value:
dictionaries look the key up (`KeyError` when missing); any other value is not
subscriptable by a string and raises `TypeError`. -/
def PyVal.subscript : PyVal → String → Except PyError PyVal
  | PyVal.dict d, key => getItem d key
  | _, _ => Except.error (PyError.typeError "object is not subscriptable")

theorem alookup_setKey_self {α : Type} (l : List (String × α)) (k : String) (v : α) :
    alookup (setKey l k v) k = some v := by
  induction l with
  | nil => simp [setKey, alookup]
  | cons p rest ih =>
    by_cases h : p.1 = k
    · simp [setKey, h, alookup]
    · simp [setKey, h, alookup, ih]

theorem alookup_setKey_ne {α : Type} (l : List (String × α)) (k k' : String) (v : α)
    (h : k' ≠ k) : alookup (setKey l k v) k' = alookup l k' := by
  induction l with
  | nil => simp [setKey, alookup, Ne.symm h]
  | cons p rest ih =>
    by_cases hp : p.1 = k
    · subst hp
      simp [setKey, alookup, Ne.symm h]
    · simp [setKey, hp, alookup, ih]

theorem alookup_eraseKey_self {α : Type} (l : List (String × α)) (k : String) :
    alookup (eraseKey l k) k = Option.none := by
  induction l with
  | nil => simp [eraseKey, alookup]
  | cons p rest ih =>
    by_cases h : p.1 = k
    · simp [eraseKey, h, ih]
    · simp [eraseKey, h, alookup, ih]

theorem alookup_eraseKey_ne {α : Type} (l : List (String × α)) (k k' : String)
    (h : k' ≠ k) : alookup (eraseKey l k) k' = alookup l k' := by
  induction l with
  | nil => simp [eraseKey]
  | cons p rest ih =>
    by_cases hp : p.1 = k
    · subst hp
      simp [eraseKey, alookup, Ne.symm h, ih]
    · simp [eraseKey, hp, alookup, ih]

theorem setKey_of_absent {α : Type} (l : List (String × α)) (k : String) (v : α)
    (h : alookup l k = Option.none) : setKey l k v = l ++ [(k, v)] := by
  induction l with
  | nil => simp [setKey]
  | cons p rest ih =>
    simp only [alookup] at h
    by_cases hp : p.1 = k
    · simp [hp] at h
    · simp only [setKey, if_neg hp, List.cons_append, List.cons.injEq, true_and]
      exact ih (by simpa [hp] using h)

theorem alookup_append_left {α : Type} (l l' : List (String × α)) (k : String)
    (h : alookup l k = Option.none) : alookup (l ++ l') k = alookup l' k := by
  induction l with
  | nil => simp
  | cons p rest ih =>
    simp only [alookup] at h ⊢
    by_cases hp : p.1 = k
    · simp [hp] at h
    · simp only [if_neg hp] at h ⊢
      exact ih h

theorem alookup_append_found {α : Type} (l l' : List (String × α)) (k : String)
    {v : α} (h : alookup l k = some v) : alookup (l ++ l') k = some v := by
  induction l with
  | nil => simp [alookup] at h
  | cons p rest ih =>
    simp only [alookup] at h ⊢
    by_cases hp : p.1 = k
    · simpa [hp] using h
    · simp only [if_neg hp] at h ⊢
      exact ih h

theorem alookup_map_pair {α : Type} (l : List String) (f : String → α)
    (k : String) (h : k ∈ l) :
    alookup (l.map fun key => (key, f key)) k = some (f k) := by
  induction l with
  | nil => simp at h
  | cons a rest ih =>
    rcases List.mem_cons.mp h with rfl | hmem
    · simp [alookup]
    · by_cases ha : a = k
      · subst ha
        simp [alookup]
      · simp [alookup, ha, ih hmem]

theorem alookup_append_single_ne {α : Type} (l : List (String × α)) (k k' : String)
    (v : α) (h : k' ≠ k) : alookup (l ++ [(k, v)]) k' = alookup l k' := by
  cases hl : alookup l k' with
  | none =>
    rw [alookup_append_left l _ _ hl]
    simp [alookup, Ne.symm h]
  | some w => exact alookup_append_found l _ _ hl

theorem alookup_of_mem_keys {α : Type} (l : List (String × α)) (k : String)
    (h : k ∈ l.map Prod.fst) : ∃ v, alookup l k = some v := by
  induction l with
  | nil => simp at h
  | cons p rest ih =>
    by_cases hp : p.1 = k
    · exact ⟨p.2, by simp [alookup, hp]⟩
    · simp only [List.map_cons, List.mem_cons] at h
      rcases h with h | h
    -- h : k = p.1 contradicts hp
      · exact absurd h.symm hp
      · obtain ⟨v, hv⟩ := ih h
        exact ⟨v, by simp [alookup, hp, hv]⟩

/-- `self[key].attr` for a key expected among the registered readouts: a
`ModuleDict` lookup (`KeyError` when the key is absent) followed by an
attribute read, whose value is represented symbolically as a reference to that
readout's attribute.  `regKeys` lists the data keys registered so far. -/
def anchorAttr (regKeys : List String) (key attr : String) : Except PyError PyVal :=
  if key ∈ regKeys then Except.ok (PyVal.attrRef key attr) else Except.error (PyError.keyError key)

/-- Lines 100-108 of `multi_readout.py`, the branch taken when
`readout_kwargs["grid_mean_predictor"] is not None`: require the predictor
type to be `"cortex"` (else `raise KeyError(...)` naming the offending type),
select the per-key source grid, and, when transform-sharing is requested, set
the shared transform to `None` for the first-processed key and to the anchor
readout's `mu_transform` for every later key. -/
def gridResolveNonNull (regKeys : List String) (i : Nat) (data_key first_data_key : String)
    (rk : Kwargs) : Except PyError Kwargs :=
  match getItem rk "grid_mean_predictor_type" with
  | Except.error e => Except.error e
  | Except.ok t =>
    if pyEqStr t "cortex" then
      match getItem rk "source_grids" with
      | Except.error e => Except.error e
      | Except.ok sgs =>
        match PyVal.subscript sgs data_key with
        | Except.error e => Except.error e
        | Except.ok g =>
          let rk1 := setKey rk "source_grid" g
          match getItem rk1 "share_transform" with
          | Except.error e => Except.error e
          | Except.ok st =>
            if st.truthy then
              match (if i = 0 then Except.ok PyVal.none
                     else anchorAttr regKeys first_data_key "mu_transform") with
              | Except.error e => Except.error e
              | Except.ok anchor => Except.ok (setKey rk1 "shared_transform" anchor)
            else Except.ok rk1
    else
      Except.error (PyError.keyError ("grid mean predictor " ++ t.display ++ " does not exist"))

/-- Lines 110-114 of `multi_readout.py`, the `elif readout_kwargs["share_grid"]:`
branch taken when `grid_mean_predictor` is present but `None`: build the
shared-grid descriptor from the per-key match-id list and either `None` (first
key) or the anchor readout's `shared_grid`. -/
def gridResolveNull (regKeys : List String) (i : Nat) (data_key first_data_key : String)
    (rk : Kwargs) : Except PyError Kwargs :=
  match getItem rk "share_grid" with
  | Except.error e => Except.error e
  | Except.ok sg =>
    if sg.truthy then
      match getItem rk "shared_match_ids" with
      | Except.error e => Except.error e
      | Except.ok mids =>
        match PyVal.subscript mids data_key with
        | Except.error e => Except.error e
        | Except.ok m =>
          match (if i = 0 then Except.ok PyVal.none
                 else anchorAttr regKeys first_data_key "shared_grid") with
          | Except.error e => Except.error e
          | Except.ok anchor =>
            Except.ok (setKey rk "shared_grid"
              (PyVal.dict [("match_ids", m), ("shared_grid", anchor)]))
    else Except.ok rk

/-- Lines 116-118 of `multi_readout.py`: the three unconditional `del`
statements at the end of the `grid_mean_predictor` block (each a `KeyError`
when its key is absent). -/
def gridDels (rk : Kwargs) : Except PyError Kwargs :=
  match delItem rk "share_transform" with
  | Except.error e => Except.error e
  | Except.ok a =>
    match delItem a "share_grid" with
    | Except.error e => Except.error e
    | Except.ok b => delItem b "grid_mean_predictor_type"

/-- Lines 99-118 of `multi_readout.py`: the whole
`if "grid_mean_predictor" in readout_kwargs:` block. -/
def gridPhase (regKeys : List String) (i : Nat) (data_key first_data_key : String)
    (rk : Kwargs) : Except PyError Kwargs :=
  match alookup rk "grid_mean_predictor" with
  | Option.none => Except.ok rk
  | some PyVal.none =>
    match gridResolveNull regKeys i data_key first_data_key rk with
    | Except.error e => Except.error e
    | Except.ok mid => gridDels mid
  | some _ =>
    match gridResolveNonNull regKeys i data_key first_data_key rk with
    | Except.error e => Except.error e
    | Except.ok mid => gridDels mid

/-- Lines 120-128 of `multi_readout.py`: the
`if "share_features" in readout_kwargs:` block.  When the flag is truthy the
shared-features descriptor is built from the per-key match-id list and either
`None` (first key) or the anchor readout's `shared_features`; otherwise
`shared_features` is set to `None`.  The flag itself is then deleted. -/
def featurePhase (regKeys : List String) (i : Nat) (data_key first_data_key : String)
    (rk : Kwargs) : Except PyError Kwargs :=
  match alookup rk "share_features" with
  | Option.none => Except.ok rk
  | some sf =>
    if sf.truthy then
      match getItem rk "shared_match_ids" with
      | Except.error e => Except.error e
      | Except.ok mids =>
        match PyVal.subscript mids data_key with
        | Except.error e => Except.error e
        | Except.ok m =>
          match (if i = 0 then Except.ok PyVal.none
                 else anchorAttr regKeys first_data_key "shared_features") with
          | Except.error e => Except.error e
          | Except.ok anchor =>
            delItem (setKey rk "shared_features"
              (PyVal.dict [("match_ids", m), ("shared_features", anchor)])) "share_features"
    else
      delItem (setKey rk "shared_features" PyVal.none) "share_features"

/-- Lines 96-129 of `multi_readout.py`:
`MultiReadoutSharedParametersBase.prepare_readout_kwargs`.  The method works on
`kwargs.copy()`, so the caller's dictionary is never mutated — here the input
list is simply never aliased. -/
def MultiReadoutSharedParametersBase.prepare_readout_kwargs (regKeys : List String)
    (i : Nat) (data_key first_data_key : String) (kwargs : Kwargs) :
    Except PyError Kwargs :=
  match gridPhase regKeys i data_key first_data_key kwargs with
  | Except.error e => Except.error e
  | Except.ok rk => featurePhase regKeys i data_key first_data_key rk

/-- Lines 72-73 of `multi_readout.py`: the base class's
`prepare_readout_kwargs` returns the supplied options unchanged. -/
def MultiReadoutBase.prepare_readout_kwargs (_regKeys : List String) (_i : Nat)
    (_data_key _first_data_key : String) (kwargs : Kwargs) : Except PyError Kwargs :=
  Except.ok kwargs

/-- The construction arguments handed to the readout sub-module constructor on
lines 58-64 (`in_shape=...`, `outdims=...`, `mean_activity=...`,
`reg_weight=...`, `**readout_kwargs`).  The sub-module's internals are outside
this fragment; per the specification's collaborator contract it is fully
determined by these construction parameters, so the model records them. -/
structure BaseReadout : Type where
  in_shape : PyVal
  outdims : PyVal
  mean_activity : PyVal
  reg_weight : PyVal
  kwargs : Kwargs

/-- Modelled from the spec: `ClonedReadout` (defined in the readout base
module, which is not part of this fragment) wraps an already-constructed
readout.  It holds a non-owning back-reference to that readout — so its
underlying weights are the original's — and owns only a learned scale and
offset, initialised to the identity affine transform.  The back-reference is
recorded by the original's data key. -/
structure ClonedReadout : Type where
  sourceKey : String
  scale : Int
  offset : Int

/-- A sub-module registered in the `ModuleDict`: either a freshly constructed
base readout or a clone wrapper. -/
inductive Readout : Type where
  | base : BaseReadout → Readout
  | clone : ClonedReadout → Readout

/-- The ordered key → sub-module registry held by the `ModuleDict`. -/
abbrev Registry := List (String × Readout)

/-- The underlying (weight-owning) base readout addressed by a key: a clone
wrapper resolves to the readout it references. -/
def underlying (reg : Registry) (key : String) : Option BaseReadout :=
  match alookup reg key with
  | some (Readout.base b) => some b
  | some (Readout.clone c) =>
    match alookup reg c.sourceKey with
    | some (Readout.base b) => some b
    | _ => Option.none
  | Option.none => Option.none

/-- Line 51 of `multi_readout.py`: per-key mean-activity resolution,
`mean_activity_dict[data_key] if mean_activity_dict is not None else None`. -/
def meanActivity (mean_activity_dict : Option Kwargs) (data_key : String) :
    Except PyError PyVal :=
  match mean_activity_dict with
  | some mad => getItem mad data_key
  | Option.none => Except.ok PyVal.none

/-- The constructor arguments of `MultiReadoutBase.__init__` that stay fixed
across the loop iterations. -/
structure BuildArgs : Type where
  in_shape_dict : Kwargs
  n_neurons_dict : Kwargs
  mean_activity_dict : Option Kwargs
  clone_readout : Bool
  gamma_readout : PyVal
  kwargs : Kwargs

/-- Lines 49-68 of `multi_readout.py`: the construction loop of
`MultiReadoutBase.__init__`, iterating `enumerate(n_neurons_dict)`.  The state
threaded through the iterations is the loop index `i`, the `first_data_key`
and `original_readout` locals, and the registry built so far.  `prepare` is
the (virtual) `prepare_readout_kwargs` method, given the keys registered so
far in place of `self`.  Registration via `add_module` follows `ModuleDict`
assignment semantics (`setKey`).  The line-50 rebinding `first_data_key =
data_key if i == 0 else first_data_key` is inlined at each use site of
`first_data_key`.  With a `Bool` clone flag the two branch
guards `i == 0 or clone_readout is False` and `i > 0 and clone_readout is
True` are complementary, so the fall-through case is unreachable. -/
def buildLoop
    (prepare : List String → Nat → String → String → Kwargs → Except PyError Kwargs)
    (a : BuildArgs) :
    Nat → String → Option String → Registry → List String → Except PyError Registry
  | _, _, _, reg, [] => Except.ok reg
  | i, first_data_key, original_readout, reg, data_key :: rest =>
    match meanActivity a.mean_activity_dict data_key with
    | Except.error e => Except.error e
    | Except.ok mean_activity =>
      match prepare (reg.map Prod.fst) i data_key
          (if i = 0 then data_key else first_data_key) a.kwargs with
      | Except.error e => Except.error e
      | Except.ok readout_kwargs =>
        if i = 0 ∨ a.clone_readout = false then
          match getItem a.in_shape_dict data_key with
          | Except.error e => Except.error e
          | Except.ok in_shape =>
            match getItem a.n_neurons_dict data_key with
            | Except.error e => Except.error e
            | Except.ok outdims =>
              buildLoop prepare a (i + 1) (if i = 0 then data_key else first_data_key)
                (some data_key)
                (setKey reg data_key (Readout.base
                  ⟨in_shape, outdims, mean_activity, a.gamma_readout, readout_kwargs⟩))
                rest
        else if 0 < i ∧ a.clone_readout = true then
          match original_readout with
          | some orig =>
            match alookup reg orig with
            | some _ =>
              buildLoop prepare a (i + 1) (if i = 0 then data_key else first_data_key)
                original_readout
                (setKey reg data_key (Readout.clone ⟨orig, 1, 0⟩)) rest
            | Option.none => Except.error (PyError.keyError orig)
          | Option.none => Except.error (PyError.nameError "original_readout")
        else
          buildLoop prepare a (i + 1) (if i = 0 then data_key else first_data_key)
            original_readout reg rest

/-- The registry produced by the construction loop, started from the empty
`ModuleDict` over the keys of `n_neurons_dict` (line 49). -/
def buildModules
    (prepare : List String → Nat → String → String → Kwargs → Except PyError Kwargs)
    (a : BuildArgs) : Except PyError Registry :=
  buildLoop prepare a 0 "" Option.none [] (a.n_neurons_dict.map Prod.fst)

/-- Lines 41-46 of `multi_readout.py`: resolution of the sub-module type.  The
class attribute `_base_readout` is overridden by the `base_readout` argument
only when the attribute is unset (`None`); if neither supplies a type,
construction raises `ValueError("Attribute _base_readout must be set")`. -/
def resolve_base_readout {α : Type} (classAttr base_readout : Option α) :
    Except PyError α :=
  let resolved := match classAttr with
    | some t => some t
    | Option.none => base_readout
  match resolved with
  | some t => Except.ok t
  | Option.none => Except.error (PyError.valueError "Attribute _base_readout must be set")

/-- Tuple-unpacking `data_key, readout = r` of a single readout module, as
line 81's `for data_key, readout in self.values():` attempts on every element
of `self.values()`.  Modelled from the spec's collaborator contract (§6): a
readout sub-module exposes a forward computation, `regularizer` and
`initialize` only — it is not iterable, so unpacking it raises `TypeError`. -/
def unpackReadout (_r : Readout) : Except PyError (String × Readout) :=
  Except.error (PyError.typeError "cannot unpack non-iterable Module object")

/-- The loop body of lines 81-83, iterated over `self.values()`.  Were the
unpacking to succeed, the loop would look up the key's mean activity and call
the sub-module's `initialize` (a collaborator method, out of scope). -/
def initializeLoop (mean_activity_dict : Option Kwargs) :
    List Readout → Except PyError Unit
  | [] => Except.ok ()
  | r :: rest =>
    match unpackReadout r with
    | Except.error e => Except.error e
    | Except.ok (data_key, _readout) =>
      match meanActivity mean_activity_dict data_key with
      | Except.error e => Except.error e
      | Except.ok _mean_activity => initializeLoop mean_activity_dict rest

/-- Lines 80-83 of `multi_readout.py`: `MultiReadoutBase.initialize`, which
iterates `self.values()` — the registered sub-modules, not key/module pairs —
while destructuring each element as `data_key, readout`. -/
def MultiReadoutBase.initialize (reg : Registry) (mean_activity_dict : Option Kwargs) :
    Except PyError Unit :=
  initializeLoop mean_activity_dict (reg.map Prod.snd)

/-- Lines 75-78 of `multi_readout.py`: `MultiReadoutBase.forward`.  When no
data key is given and exactly one sub-module is registered, the sole key is
used; the call is then dispatched as `self[data_key](*args, **kwargs)` —
`self[None]` raises `KeyError` (`None` is not a registered key).  The
dispatched sub-module's forward computation is outside this fragment, so the
model returns the addressed key and sub-module together with the forwarded
arguments. -/
def MultiReadoutBase.forward (reg : Registry) (args : List PyVal)
    (data_key : Option String) : Except PyError (String × Readout × List PyVal) :=
  let dk := if data_key = Option.none ∧ reg.length = 1
    then (reg.map Prod.fst).head? else data_key
  match dk with
  | Option.none => Except.error (PyError.keyError "None")
  | some k =>
    match alookup reg k with
    | some r => Except.ok (k, r, args)
    | Option.none => Except.error (PyError.keyError k)

/-- Lines 85-88 of `multi_readout.py`: `MultiReadoutBase.regularizer`, with
the same key-resolution rule as `forward`; the call is then delegated as
`self[data_key].regularizer(reduction=reduction, average=average)` (the
sub-module's regularizer computation is outside this fragment, so the model
returns the addressed key and sub-module with the delegated arguments). -/
def MultiReadoutBase.regularizer (reg : Registry) (data_key : Option String)
    (reduction : String) (average : Option Bool) :
    Except PyError (String × Readout × String × Option Bool) :=
  let dk := if data_key = Option.none ∧ reg.length = 1
    then (reg.map Prod.fst).head? else data_key
  match dk with
  | Option.none => Except.error (PyError.keyError "None")
  | some k =>
    match alookup reg k with
    | some r => Except.ok (k, r, reduction, average)
    | Option.none => Except.error (PyError.keyError k)

theorem delItem_ok_shape (d out : Kwargs) (key : String)
    (h : delItem d key = Except.ok out) :
    hasKey d key = true ∧ out = eraseKey d key := by
  unfold delItem at h
  split at h
  · refine ⟨by assumption, ?_⟩
    injection h with h'
    exact h'.symm
  · cases h

theorem gridDels_ok_shape (rk out : Kwargs) (h : gridDels rk = Except.ok out) :
    out = eraseKey (eraseKey (eraseKey rk "share_transform") "share_grid")
        "grid_mean_predictor_type" ∧
    hasKey rk "share_transform" = true ∧
    hasKey rk "share_grid" = true ∧
    hasKey rk "grid_mean_predictor_type" = true := by
  unfold gridDels at h
  split at h
  · cases h
  · rename_i a h1
    split at h
    · cases h
    · rename_i b h2
      obtain ⟨p1, e1⟩ := delItem_ok_shape _ _ _ h1
      obtain ⟨p2, e2⟩ := delItem_ok_shape _ _ _ h2
      obtain ⟨p3, e3⟩ := delItem_ok_shape _ _ _ h
      subst e1
      subst e2
      subst e3
      refine ⟨rfl, p1, ?_, ?_⟩
      · rw [hasKey, alookup_eraseKey_ne _ _ _ (by decide)] at p2
        exact p2
      · rw [hasKey, alookup_eraseKey_ne _ _ _ (by decide),
          alookup_eraseKey_ne _ _ _ (by decide)] at p3
        exact p3

theorem gridDels_preserve (rk out : Kwargs) (k : String) (h : gridDels rk = Except.ok out)
    (h1 : k ≠ "share_transform") (h2 : k ≠ "share_grid")
    (h3 : k ≠ "grid_mean_predictor_type") :
    alookup out k = alookup rk k := by
  obtain ⟨ho, -, -, -⟩ := gridDels_ok_shape rk out h
  subst ho
  rw [alookup_eraseKey_ne _ _ _ h3, alookup_eraseKey_ne _ _ _ h2,
    alookup_eraseKey_ne _ _ _ h1]

theorem gridDels_removed (rk out : Kwargs) (h : gridDels rk = Except.ok out) :
    alookup out "share_transform" = Option.none ∧
    alookup out "share_grid" = Option.none ∧
    alookup out "grid_mean_predictor_type" = Option.none := by
  obtain ⟨ho, -, -, -⟩ := gridDels_ok_shape rk out h
  subst ho
  refine ⟨?_, ?_, ?_⟩
  · rw [alookup_eraseKey_ne _ _ _ (by decide), alookup_eraseKey_ne _ _ _ (by decide),
      alookup_eraseKey_self]
  · rw [alookup_eraseKey_ne _ _ _ (by decide), alookup_eraseKey_self]
  · rw [alookup_eraseKey_self]

theorem gridResolveNull_ok_shape (regKeys : List String) (i : Nat)
    (data_key first_data_key : String) (rk mid : Kwargs)
    (h : gridResolveNull regKeys i data_key first_data_key rk = Except.ok mid) :
    mid = rk ∨ ∃ v, mid = setKey rk "shared_grid" v := by
  unfold gridResolveNull at h
  split at h
  · cases h
  · rename_i sg hsg
    split at h
    · split at h
      · cases h
      · rename_i mids hmids
        split at h
        · cases h
        · rename_i m hm
          split at h
          · cases h
          · rename_i anchor hanchor
            injection h with h'
            exact Or.inr ⟨_, h'.symm⟩
    · injection h with h'
      exact Or.inl h'.symm

theorem gridResolveNonNull_ok_shape (regKeys : List String) (i : Nat)
    (data_key first_data_key : String) (rk mid : Kwargs)
    (h : gridResolveNonNull regKeys i data_key first_data_key rk = Except.ok mid) :
    ∃ g, mid = setKey rk "source_grid" g ∨
      ∃ v, mid = setKey (setKey rk "source_grid" g) "shared_transform" v := by
  unfold gridResolveNonNull at h
  cases ht : getItem rk "grid_mean_predictor_type" with
  | error e =>
    rw [ht] at h
    simp only [] at h
    cases h
  | ok t =>
    rw [ht] at h
    simp only [] at h
    by_cases hc : pyEqStr t "cortex" = true
    · rw [if_pos hc] at h
      cases hsgs : getItem rk "source_grids" with
      | error e =>
        rw [hsgs] at h
        simp only [] at h
        cases h
      | ok sgs =>
        rw [hsgs] at h
        simp only [] at h
        cases hg : sgs.subscript data_key with
        | error e =>
          rw [hg] at h
          simp only [] at h
          cases h
        | ok g =>
          rw [hg] at h
          simp only [] at h
          cases hst : getItem (setKey rk "source_grid" g) "share_transform" with
          | error e =>
            rw [hst] at h
            simp only [] at h
            cases h
          | ok st =>
            rw [hst] at h
            simp only [] at h
            by_cases htr : st.truthy = true
            · rw [if_pos htr] at h
              cases ha : (if i = 0 then Except.ok PyVal.none
                  else anchorAttr regKeys first_data_key "mu_transform") with
              | error e =>
                rw [ha] at h
                simp only [] at h
                cases h
              | ok anchor =>
                rw [ha] at h
                simp only [] at h
                injection h with h2
                exact ⟨g, Or.inr ⟨anchor, h2.symm⟩⟩
            · rw [if_neg htr] at h
              injection h with h2
              exact ⟨g, Or.inl h2.symm⟩
    · rw [if_neg hc] at h
      cases h

theorem gridPhase_preserve (regKeys : List String) (i : Nat)
    (data_key first_data_key : String) (rk out : Kwargs) (k : String)
    (h : gridPhase regKeys i data_key first_data_key rk = Except.ok out)
    (h1 : k ≠ "share_transform") (h2 : k ≠ "share_grid")
    (h3 : k ≠ "grid_mean_predictor_type") (h4 : k ≠ "source_grid")
    (h5 : k ≠ "shared_transform") (h6 : k ≠ "shared_grid") :
    alookup out k = alookup rk k := by
  unfold gridPhase at h
  split at h
  · injection h with h'
    rw [h']
  · rename_i hgmp
    split at h
    · cases h
    · rename_i mid hmid
      rcases gridResolveNull_ok_shape _ _ _ _ _ _ hmid with hr | ⟨v, hr⟩ <;>
        subst hr
      · exact gridDels_preserve _ _ _ h h1 h2 h3
      · rw [gridDels_preserve _ _ _ h h1 h2 h3, alookup_setKey_ne _ _ _ _ h6]
  · rename_i v hgmp
    split at h
    · cases h
    · rename_i mid hmid
      rcases gridResolveNonNull_ok_shape _ _ _ _ _ _ hmid with ⟨g, hr | ⟨w, hr⟩⟩ <;>
        subst hr
      · rw [gridDels_preserve _ _ _ h h1 h2 h3, alookup_setKey_ne _ _ _ _ h4]
      · rw [gridDels_preserve _ _ _ h h1 h2 h3, alookup_setKey_ne _ _ _ _ h5,
          alookup_setKey_ne _ _ _ _ h4]

theorem gridPhase_consumed (regKeys : List String) (i : Nat)
    (data_key first_data_key : String) (rk out : Kwargs)
    (h : gridPhase regKeys i data_key first_data_key rk = Except.ok out)
    (hgmp : hasKey rk "grid_mean_predictor" = true) :
    alookup out "share_transform" = Option.none ∧
    alookup out "share_grid" = Option.none ∧
    alookup out "grid_mean_predictor_type" = Option.none := by
  unfold gridPhase at h
  split at h
  · rename_i hnone
    rw [hasKey, hnone] at hgmp
    cases hgmp
  · split at h
    · cases h
    · exact gridDels_removed _ _ h
  · split at h
    · cases h
    · exact gridDels_removed _ _ h

theorem gridPhase_companions_present (regKeys : List String) (i : Nat)
    (data_key first_data_key : String) (rk out : Kwargs)
    (h : gridPhase regKeys i data_key first_data_key rk = Except.ok out)
    (hgmp : hasKey rk "grid_mean_predictor" = true) :
    hasKey rk "share_transform" = true ∧ hasKey rk "share_grid" = true ∧
    hasKey rk "grid_mean_predictor_type" = true := by
  unfold gridPhase at h
  split at h
  · rename_i hnone
    rw [hasKey, hnone] at hgmp
    cases hgmp
  · split at h
    · cases h
    · rename_i mid hmid
      obtain ⟨-, p1, p2, p3⟩ := gridDels_ok_shape _ _ h
      rcases gridResolveNull_ok_shape _ _ _ _ _ _ hmid with hr | ⟨v, hr⟩ <;> subst hr
      · exact ⟨p1, p2, p3⟩
      · rw [hasKey, alookup_setKey_ne _ _ _ _ (by decide)] at p1 p2 p3
        exact ⟨p1, p2, p3⟩
  · split at h
    · cases h
    · rename_i mid hmid
      obtain ⟨-, p1, p2, p3⟩ := gridDels_ok_shape _ _ h
      rcases gridResolveNonNull_ok_shape _ _ _ _ _ _ hmid with ⟨g, hr | ⟨w, hr⟩⟩ <;>
        subst hr
      · rw [hasKey, alookup_setKey_ne _ _ _ _ (by decide)] at p1 p2 p3
        exact ⟨p1, p2, p3⟩
      · rw [hasKey, alookup_setKey_ne _ _ _ _ (by decide),
          alookup_setKey_ne _ _ _ _ (by decide)] at p1 p2 p3
        exact ⟨p1, p2, p3⟩

theorem featurePhase_ok_shape (regKeys : List String) (i : Nat)
    (data_key first_data_key : String) (rk out : Kwargs)
    (h : featurePhase regKeys i data_key first_data_key rk = Except.ok out) :
    (alookup rk "share_features" = Option.none ∧ out = rk) ∨
    ∃ v, out = eraseKey (setKey rk "shared_features" v) "share_features" := by
  unfold featurePhase at h
  split at h
  · rename_i hnone
    injection h with h2
    exact Or.inl ⟨hnone, h2.symm⟩
  · rename_i sf hsf
    by_cases htr : sf.truthy = true
    · rw [if_pos htr] at h
      cases hm : getItem rk "shared_match_ids" with
      | error e =>
        rw [hm] at h
        simp only [] at h
        cases h
      | ok mids =>
        rw [hm] at h
        simp only [] at h
        cases hs : mids.subscript data_key with
        | error e =>
          rw [hs] at h
          simp only [] at h
          cases h
        | ok m =>
          rw [hs] at h
          simp only [] at h
          cases ha : (if i = 0 then Except.ok PyVal.none
              else anchorAttr regKeys first_data_key "shared_features") with
          | error e =>
            rw [ha] at h
            simp only [] at h
            cases h
          | ok anchor =>
            rw [ha] at h
            simp only [] at h
            exact Or.inr ⟨_, (delItem_ok_shape _ _ _ h).2⟩
    · rw [if_neg htr] at h
      exact Or.inr ⟨_, (delItem_ok_shape _ _ _ h).2⟩

theorem featurePhase_preserve (regKeys : List String) (i : Nat)
    (data_key first_data_key : String) (rk out : Kwargs) (k : String)
    (h : featurePhase regKeys i data_key first_data_key rk = Except.ok out)
    (h1 : k ≠ "share_features") (h2 : k ≠ "shared_features") :
    alookup out k = alookup rk k := by
  rcases featurePhase_ok_shape _ _ _ _ _ _ h with ⟨-, ho⟩ | ⟨v, ho⟩ <;> subst ho
  · rfl
  · rw [alookup_eraseKey_ne _ _ _ h1, alookup_setKey_ne _ _ _ _ h2]

theorem featurePhase_no_flag (regKeys : List String) (i : Nat)
    (data_key first_data_key : String) (rk out : Kwargs)
    (h : featurePhase regKeys i data_key first_data_key rk = Except.ok out) :
    alookup out "share_features" = Option.none := by
  rcases featurePhase_ok_shape _ _ _ _ _ _ h with ⟨hn, ho⟩ | ⟨v, ho⟩ <;> subst ho
  · exact hn
  · exact alookup_eraseKey_self _ _

theorem featurePhase_descriptor (regKeys : List String) (i : Nat)
    (data_key first_data_key : String) (rk out : Kwargs) (sf : PyVal)
    (mids : List (String × PyVal)) (m : PyVal)
    (h : featurePhase regKeys i data_key first_data_key rk = Except.ok out)
    (hsf : alookup rk "share_features" = some sf) (htr : sf.truthy = true)
    (hm : alookup rk "shared_match_ids" = some (PyVal.dict mids))
    (hmid : alookup mids data_key = some m)
    (hanchor : i ≠ 0 → first_data_key ∈ regKeys) :
    alookup out "shared_features" = some (PyVal.dict [("match_ids", m),
      ("shared_features", if i = 0 then PyVal.none
        else PyVal.attrRef first_data_key "shared_features")]) := by
  unfold featurePhase at h
  rw [hsf] at h
  simp only [] at h
  rw [if_pos htr] at h
  have hg1 : getItem rk "shared_match_ids" = Except.ok (PyVal.dict mids) := by
    unfold getItem
    rw [hm]
  rw [hg1] at h
  simp only [] at h
  have hg2 : (PyVal.dict mids).subscript data_key = Except.ok m := by
    simp [PyVal.subscript, getItem, hmid]
  rw [hg2] at h
  simp only [] at h
  have hA : (if i = 0 then Except.ok PyVal.none
      else anchorAttr regKeys first_data_key "shared_features") =
      Except.ok (if i = 0 then PyVal.none
        else PyVal.attrRef first_data_key "shared_features") := by
    by_cases h0 : i = 0
    · simp [h0]
    · simp [h0, anchorAttr, hanchor h0]
  rw [hA] at h
  simp only [] at h
  obtain ⟨-, ho⟩ := delItem_ok_shape _ _ _ h
  subst ho
  rw [alookup_eraseKey_ne _ _ _ (by decide), alookup_setKey_self]

theorem featurePhase_null (regKeys : List String) (i : Nat)
    (data_key first_data_key : String) (rk out : Kwargs) (sf : PyVal)
    (h : featurePhase regKeys i data_key first_data_key rk = Except.ok out)
    (hsf : alookup rk "share_features" = some sf) (htr : sf.truthy = false) :
    alookup out "shared_features" = some PyVal.none := by
  unfold featurePhase at h
  rw [hsf] at h
  simp only [] at h
  rw [if_neg (by simp [htr])] at h
  obtain ⟨-, ho⟩ := delItem_ok_shape _ _ _ h
  subst ho
  rw [alookup_eraseKey_ne _ _ _ (by decide), alookup_setKey_self]

theorem gridPhase_nonnull_reduce (regKeys : List String) (i : Nat)
    (data_key first_data_key : String) (rk : Kwargs) (gmp : PyVal)
    (hnn : gmp ≠ PyVal.none) (hgmp : alookup rk "grid_mean_predictor" = some gmp) :
    gridPhase regKeys i data_key first_data_key rk =
      (match gridResolveNonNull regKeys i data_key first_data_key rk with
       | Except.error e => Except.error e
       | Except.ok mid => gridDels mid) := by
  unfold gridPhase
  rw [hgmp]
  cases gmp <;> first
    | exact absurd rfl hnn
    | rfl

theorem gridResolveNonNull_shared_transform (regKeys : List String) (i : Nat)
    (data_key first_data_key : String) (rk mid : Kwargs) (st : PyVal)
    (h : gridResolveNonNull regKeys i data_key first_data_key rk = Except.ok mid)
    (ht : alookup rk "grid_mean_predictor_type" = some (PyVal.str "cortex"))
    (hst : alookup rk "share_transform" = some st) (htr : st.truthy = true)
    (hanchor : i ≠ 0 → first_data_key ∈ regKeys) :
    alookup mid "shared_transform" = some (if i = 0 then PyVal.none
      else PyVal.attrRef first_data_key "mu_transform") := by
  unfold gridResolveNonNull at h
  have hg1 : getItem rk "grid_mean_predictor_type" = Except.ok (PyVal.str "cortex") := by
    unfold getItem
    rw [ht]
  rw [hg1] at h
  simp only [] at h
  rw [if_pos (by decide)] at h
  cases hsgs : getItem rk "source_grids" with
  | error e =>
    rw [hsgs] at h
    simp only [] at h
    cases h
  | ok sgs =>
    rw [hsgs] at h
    simp only [] at h
    cases hg : sgs.subscript data_key with
    | error e =>
      rw [hg] at h
      simp only [] at h
      cases h
    | ok g =>
      rw [hg] at h
      simp only [] at h
      have hst1 : getItem (setKey rk "source_grid" g) "share_transform" = Except.ok st := by
        unfold getItem
        rw [alookup_setKey_ne _ _ _ _ (by decide), hst]
      rw [hst1] at h
      simp only [] at h
      rw [if_pos htr] at h
      have hA : (if i = 0 then Except.ok PyVal.none
          else anchorAttr regKeys first_data_key "mu_transform") =
          Except.ok (if i = 0 then PyVal.none
            else PyVal.attrRef first_data_key "mu_transform") := by
        by_cases h0 : i = 0
        · simp [h0]
        · simp [h0, anchorAttr, hanchor h0]
      rw [hA] at h
      simp only [] at h
      injection h with h2
      rw [h2.symm, alookup_setKey_self]

/-- C3: in the parameter-sharing variant, whenever the resolved options are
produced for a key with `grid_mean_predictor` present and non-null,
`grid_mean_predictor_type = "cortex"`, and a truthy `share_transform`, the
resolved options bind `shared_transform` to `None` for the anchor
(first-processed, `i = 0`) key, and to a reference to the anchor sub-module's
`mu_transform` for every other key. -/
theorem c3_shared_transform_resolution (regKeys : List String) (i : Nat)
    (data_key first_data_key : String) (kwargs out : Kwargs) (gmp st : PyVal)
    (hok : MultiReadoutSharedParametersBase.prepare_readout_kwargs regKeys i data_key
      first_data_key kwargs = Except.ok out)
    (hgmp : alookup kwargs "grid_mean_predictor" = some gmp)
    (hnn : gmp ≠ PyVal.none)
    (ht : alookup kwargs "grid_mean_predictor_type" = some (PyVal.str "cortex"))
    (hst : alookup kwargs "share_transform" = some st) (htr : st.truthy = true)
    (hanchor : i ≠ 0 → first_data_key ∈ regKeys) :
    alookup out "shared_transform" = some (if i = 0 then PyVal.none
      else PyVal.attrRef first_data_key "mu_transform") := by
  unfold MultiReadoutSharedParametersBase.prepare_readout_kwargs at hok
  rw [gridPhase_nonnull_reduce regKeys i data_key first_data_key kwargs gmp hnn hgmp] at hok
  cases hr : gridResolveNonNull regKeys i data_key first_data_key kwargs with
  | error e =>
    rw [hr] at hok
    simp only [] at hok
    cases hok
  | ok mid =>
    rw [hr] at hok
    simp only [] at hok
    cases hd : gridDels mid with
    | error e =>
      rw [hd] at hok
      simp only [] at hok
      cases hok
    | ok rk1 =>
      rw [hd] at hok
      simp only [] at hok
      rw [featurePhase_preserve _ _ _ _ _ _ _ hok (by decide) (by decide),
        gridDels_preserve _ _ _ hd (by decide) (by decide) (by decide)]
      exact gridResolveNonNull_shared_transform _ _ _ _ _ _ _ hr ht hst htr hanchor

/-- C4: in the parameter-sharing variant, whenever the resolved options are
produced for a key: if `share_features` is supplied truthy with a match-id map
containing the key, the resolved options bind `shared_features` to a
descriptor holding that key's own match-id list and `None` for the anchor
(`i = 0`) key or a reference to the anchor sub-module's `shared_features` for
every later key; if `share_features` is supplied falsy, `shared_features` is
bound to `None`. -/
theorem c4_shared_features_resolution (regKeys : List String) (i : Nat)
    (data_key first_data_key : String) (kwargs out : Kwargs)
    (hok : MultiReadoutSharedParametersBase.prepare_readout_kwargs regKeys i data_key
      first_data_key kwargs = Except.ok out) :
    (∀ (sf m : PyVal) (mids : List (String × PyVal)),
      alookup kwargs "share_features" = some sf → sf.truthy = true →
      alookup kwargs "shared_match_ids" = some (PyVal.dict mids) →
      alookup mids data_key = some m → (i ≠ 0 → first_data_key ∈ regKeys) →
      alookup out "shared_features" = some (PyVal.dict [("match_ids", m),
        ("shared_features", if i = 0 then PyVal.none
          else PyVal.attrRef first_data_key "shared_features")])) ∧
    (∀ sf : PyVal, alookup kwargs "share_features" = some sf → sf.truthy = false →
      alookup out "shared_features" = some PyVal.none) := by
  unfold MultiReadoutSharedParametersBase.prepare_readout_kwargs at hok
  cases hg : gridPhase regKeys i data_key first_data_key kwargs with
  | error e =>
    rw [hg] at hok
    simp only [] at hok
    cases hok
  | ok rk1 =>
    rw [hg] at hok
    simp only [] at hok
    have hsfp : alookup rk1 "share_features" = alookup kwargs "share_features" :=
      gridPhase_preserve _ _ _ _ _ _ _ hg (by decide) (by decide) (by decide)
        (by decide) (by decide) (by decide)
    have hmip : alookup rk1 "shared_match_ids" = alookup kwargs "shared_match_ids" :=
      gridPhase_preserve _ _ _ _ _ _ _ hg (by decide) (by decide) (by decide)
        (by decide) (by decide) (by decide)
    constructor
    · intro sf m mids hsf htr hm hmid hanchor
      exact featurePhase_descriptor _ _ _ _ _ _ sf mids m hok (hsfp.trans hsf) htr
        (hmip.trans hm) hmid hanchor
    · intro sf hsf htr
      exact featurePhase_null _ _ _ _ _ _ sf hok (hsfp.trans hsf) htr

theorem prepare_bad_type_error (regKeys : List String) (i : Nat)
    (data_key first_data_key : String) (kwargs : Kwargs) (gmp : PyVal) (s : String)
    (hgmp : alookup kwargs "grid_mean_predictor" = some gmp) (hnn : gmp ≠ PyVal.none)
    (ht : alookup kwargs "grid_mean_predictor_type" = some (PyVal.str s))
    (hs : s ≠ "cortex") :
    MultiReadoutSharedParametersBase.prepare_readout_kwargs regKeys i data_key
      first_data_key kwargs =
      Except.error (PyError.keyError ("grid mean predictor " ++ s ++ " does not exist")) := by
  unfold MultiReadoutSharedParametersBase.prepare_readout_kwargs
  rw [gridPhase_nonnull_reduce regKeys i data_key first_data_key kwargs gmp hnn hgmp]
  have hres : gridResolveNonNull regKeys i data_key first_data_key kwargs =
      Except.error (PyError.keyError ("grid mean predictor " ++ s ++ " does not exist")) := by
    unfold gridResolveNonNull
    have hg1 : getItem kwargs "grid_mean_predictor_type" = Except.ok (PyVal.str s) := by
      unfold getItem
      rw [ht]
    rw [hg1]
    simp only []
    rw [if_neg (by simp [pyEqStr, hs])]
    rfl
  rw [hres]

theorem buildLoop_nil
    (prepare : List String → Nat → String → String → Kwargs → Except PyError Kwargs)
    (a : BuildArgs) (i : Nat) (fdk : String) (orig : Option String) (reg : Registry) :
    buildLoop prepare a i fdk orig reg [] = Except.ok reg := rfl

theorem buildLoop_cons
    (prepare : List String → Nat → String → String → Kwargs → Except PyError Kwargs)
    (a : BuildArgs) (i : Nat) (fdk : String) (orig : Option String) (reg : Registry)
    (data_key : String) (rest : List String) :
    buildLoop prepare a i fdk orig reg (data_key :: rest) =
      (match meanActivity a.mean_activity_dict data_key with
      | Except.error e => Except.error e
      | Except.ok mean_activity =>
        match prepare (reg.map Prod.fst) i data_key
            (if i = 0 then data_key else fdk) a.kwargs with
        | Except.error e => Except.error e
        | Except.ok readout_kwargs =>
          if i = 0 ∨ a.clone_readout = false then
            match getItem a.in_shape_dict data_key with
            | Except.error e => Except.error e
            | Except.ok in_shape =>
              match getItem a.n_neurons_dict data_key with
              | Except.error e => Except.error e
              | Except.ok outdims =>
                buildLoop prepare a (i + 1) (if i = 0 then data_key else fdk)
                  (some data_key)
                  (setKey reg data_key (Readout.base
                    ⟨in_shape, outdims, mean_activity, a.gamma_readout, readout_kwargs⟩))
                  rest
          else if 0 < i ∧ a.clone_readout = true then
            match orig with
            | some o =>
              match alookup reg o with
              | some _ =>
                buildLoop prepare a (i + 1) (if i = 0 then data_key else fdk)
                  orig (setKey reg data_key (Readout.clone ⟨o, 1, 0⟩)) rest
              | Option.none => Except.error (PyError.keyError o)
            | Option.none => Except.error (PyError.nameError "original_readout")
          else
            buildLoop prepare a (i + 1) (if i = 0 then data_key else fdk)
              orig reg rest) := rfl

/-- C5: in the parameter-sharing variant, if the supplied options carry a
non-null `grid_mean_predictor` and a `grid_mean_predictor_type` string other
than `"cortex"`, construction fails with a `KeyError` whose message names the
offending kind. -/
theorem c5_unrecognized_predictor_kind (a : BuildArgs) (k0 : String) (n0 : PyVal)
    (nnrest : List (String × PyVal)) (gmp : PyVal) (s : String)
    (hnn : a.n_neurons_dict = (k0, n0) :: nnrest)
    (hmad : a.mean_activity_dict = Option.none)
    (hgmp : alookup a.kwargs "grid_mean_predictor" = some gmp)
    (hnotnull : gmp ≠ PyVal.none)
    (ht : alookup a.kwargs "grid_mean_predictor_type" = some (PyVal.str s))
    (hs : s ≠ "cortex") :
    buildModules MultiReadoutSharedParametersBase.prepare_readout_kwargs a =
      Except.error (PyError.keyError ("grid mean predictor " ++ s ++ " does not exist")) := by
  unfold buildModules
  rw [hnn]
  simp only [List.map_cons]
  rw [buildLoop_cons]
  simp only [hmad, meanActivity, List.map_nil, if_pos rfl, if_true]
  rw [prepare_bad_type_error [] 0 k0 k0 a.kwargs gmp s hgmp hnotnull ht hs]

theorem prepare_ok_companions (regKeys : List String) (i : Nat)
    (data_key first_data_key : String) (kwargs out : Kwargs)
    (hok : MultiReadoutSharedParametersBase.prepare_readout_kwargs regKeys i data_key
      first_data_key kwargs = Except.ok out)
    (hgmp : hasKey kwargs "grid_mean_predictor" = true) :
    hasKey kwargs "share_transform" = true ∧ hasKey kwargs "share_grid" = true ∧
    hasKey kwargs "grid_mean_predictor_type" = true := by
  unfold MultiReadoutSharedParametersBase.prepare_readout_kwargs at hok
  cases hg : gridPhase regKeys i data_key first_data_key kwargs with
  | error e =>
    rw [hg] at hok
    simp only [] at hok
    cases hok
  | ok rk1 => exact gridPhase_companions_present _ _ _ _ _ _ hg hgmp

/-- C10 (amended): in the parameter-sharing variant, supplying
`grid_mean_predictor` (even as null) while omitting any of `share_transform`,
`share_grid` or `grid_mean_predictor_type` makes `prepare_readout_kwargs`
raise — presence of `grid_mean_predictor` is an undocumented precondition
requiring all three companion options.  (The raised exception is a `KeyError`
on every pure-lookup path, but a `TypeError` when a subscripted companion such
as `source_grids` or `shared_match_ids` is not a mapping, so "raises an
exception" rather than "raises a KeyError" is what holds in general.) -/
theorem c10_missing_companion_fails (regKeys : List String) (i : Nat)
    (data_key first_data_key : String) (kwargs : Kwargs)
    (hgmp : hasKey kwargs "grid_mean_predictor" = true)
    (hmiss : hasKey kwargs "share_transform" = false ∨
      hasKey kwargs "share_grid" = false ∨
      hasKey kwargs "grid_mean_predictor_type" = false) :
    ∃ e, MultiReadoutSharedParametersBase.prepare_readout_kwargs regKeys i data_key
      first_data_key kwargs = Except.error e := by
  cases hres : MultiReadoutSharedParametersBase.prepare_readout_kwargs regKeys i data_key
      first_data_key kwargs with
  | error e => exact ⟨e, rfl⟩
  | ok out =>
    obtain ⟨h1, h2, h3⟩ := prepare_ok_companions _ _ _ _ _ _ hres hgmp
    rcases hmiss with hm | hm | hm <;> simp_all

/-- C10 (counterexample to the claim as stated): these options contain
`grid_mean_predictor` and lack both `share_transform` and `share_grid`, yet
`prepare_readout_kwargs` raises a `TypeError` (subscripting the non-mapping
`source_grids`), not the `KeyError` the claim asserts. -/
theorem c10_counterexample :
    MultiReadoutSharedParametersBase.prepare_readout_kwargs [] 0 "a" "a"
        [("grid_mean_predictor", PyVal.bool true),
         ("grid_mean_predictor_type", PyVal.str "cortex"),
         ("source_grids", PyVal.nat 7)] =
      Except.error (PyError.typeError "object is not subscriptable") := rfl

/-- C10 (witness): with `grid_mean_predictor` supplied as null and all three
companions missing, resolution fails. -/
theorem c10_missing_companion_fails_witness :
    hasKey [("grid_mean_predictor", PyVal.none)] "grid_mean_predictor" = true ∧
    hasKey [("grid_mean_predictor", PyVal.none)] "share_transform" = false ∧
    (∃ e, MultiReadoutSharedParametersBase.prepare_readout_kwargs [] 0 "a" "a"
      [("grid_mean_predictor", PyVal.none)] = Except.error e) :=
  ⟨rfl, rfl, c10_missing_companion_fails [] 0 "a" "a"
    [("grid_mean_predictor", PyVal.none)] rfl (Or.inl rfl)⟩

/-- C9 (counterexample to the claim as stated): with `share_transform`
supplied but no `grid_mean_predictor`, resolution succeeds and the returned
options still contain the `share_transform` directive — the factory-level
directives are consumed only inside the `grid_mean_predictor` block. -/
theorem c9_counterexample :
    MultiReadoutSharedParametersBase.prepare_readout_kwargs [] 0 "a" "a"
        [("share_transform", PyVal.bool true)] =
      Except.ok [("share_transform", PyVal.bool true)] := rfl

/-- C9 (amended): for every successful resolution, (a) when
`grid_mean_predictor` was supplied, none of `share_transform`, `share_grid`,
`grid_mean_predictor_type` survives into the returned options; (b) a supplied
`share_features` flag never survives; (c) every other supplied option — any
key other than the four directives and the four descriptor slots
(`source_grid`, `shared_transform`, `shared_grid`, `shared_features`) the
resolution may write — passes through unchanged. -/
theorem c9_directives_consumed (regKeys : List String) (i : Nat)
    (data_key first_data_key : String) (kwargs out : Kwargs)
    (hok : MultiReadoutSharedParametersBase.prepare_readout_kwargs regKeys i data_key
      first_data_key kwargs = Except.ok out) :
    (hasKey kwargs "grid_mean_predictor" = true →
      hasKey out "share_transform" = false ∧ hasKey out "share_grid" = false ∧
      hasKey out "grid_mean_predictor_type" = false) ∧
    hasKey out "share_features" = false ∧
    (∀ k : String, k ≠ "grid_mean_predictor_type" → k ≠ "share_transform" →
      k ≠ "share_grid" → k ≠ "share_features" → k ≠ "source_grid" →
      k ≠ "shared_transform" → k ≠ "shared_grid" → k ≠ "shared_features" →
      alookup out k = alookup kwargs k) := by
  unfold MultiReadoutSharedParametersBase.prepare_readout_kwargs at hok
  cases hg : gridPhase regKeys i data_key first_data_key kwargs with
  | error e =>
    rw [hg] at hok
    simp only [] at hok
    cases hok
  | ok rk1 =>
    rw [hg] at hok
    simp only [] at hok
    refine ⟨?_, ?_, ?_⟩
    · intro hgmp
      obtain ⟨r1, r2, r3⟩ := gridPhase_consumed _ _ _ _ _ _ hg hgmp
      refine ⟨?_, ?_, ?_⟩
      · rw [hasKey, featurePhase_preserve _ _ _ _ _ _ _ hok (by decide) (by decide), r1]
        rfl
      · rw [hasKey, featurePhase_preserve _ _ _ _ _ _ _ hok (by decide) (by decide), r2]
        rfl
      · rw [hasKey, featurePhase_preserve _ _ _ _ _ _ _ hok (by decide) (by decide), r3]
        rfl
    · rw [hasKey, featurePhase_no_flag _ _ _ _ _ _ hok]
      rfl
    · intro k h1 h2 h3 h4 h5 h6 h7 h8
      rw [featurePhase_preserve _ _ _ _ _ _ _ hok h4 h8,
        gridPhase_preserve _ _ _ _ _ _ _ hg h2 h3 h1 h5 h6 h7]

/-- C1: the claim states that `initialize` iterates key+module pairs and calls
each registered sub-module's `initialize` with the mean-activity entry looked
up under that sub-module's own key.  The code instead iterates `self.values()`
— the sub-modules only — while destructuring each element as
`data_key, readout`, so on any non-empty registry `initialize` raises
`TypeError` before any sub-module is initialized (the latent defect the
specification flags in §4.1).  Evaluated here at a one-key registry with a
matching mean-activity map. -/
theorem c1_initialize_iterates_values_bug :
    MultiReadoutBase.initialize
        [("a", Readout.base ⟨PyVal.list [PyVal.nat 4, PyVal.nat 8, PyVal.nat 8],
          PyVal.nat 10, PyVal.none, PyVal.nat 1, []⟩)]
        (some [("a", PyVal.nat 5)]) =
      Except.error (PyError.typeError "cannot unpack non-iterable Module object") := rfl

/-- C2: with no data key, `forward` and `regularizer` succeed and route to the
sole sub-module when exactly one is registered, and fail — the `self[None]`
lookup raises `KeyError` rather than silently picking a key — when two or more
sub-modules are registered. -/
theorem c2_dispatch_no_key (k : String) (r : Readout) (args : List PyVal)
    (reg : Registry) (hlen : 2 ≤ reg.length) :
    (MultiReadoutBase.forward [(k, r)] args Option.none = Except.ok (k, r, args) ∧
     MultiReadoutBase.regularizer [(k, r)] Option.none "sum" Option.none =
       Except.ok (k, r, "sum", Option.none)) ∧
    (MultiReadoutBase.forward reg args Option.none =
       Except.error (PyError.keyError "None") ∧
     MultiReadoutBase.regularizer reg Option.none "sum" Option.none =
       Except.error (PyError.keyError "None")) := by
  have hne : reg.length ≠ 1 := by omega
  refine ⟨⟨?_, ?_⟩, ?_, ?_⟩
  · simp [MultiReadoutBase.forward, alookup]
  · simp [MultiReadoutBase.regularizer, alookup]
  · simp [MultiReadoutBase.forward, hne]
  · simp [MultiReadoutBase.regularizer, hne]

/-- C2 (witness): dispatch at a one-key registry and at a two-key registry. -/
theorem c2_dispatch_no_key_witness :
    (MultiReadoutBase.forward [("a", Readout.base ⟨PyVal.nat 1, PyVal.nat 2,
        PyVal.none, PyVal.nat 1, []⟩)] [PyVal.nat 3] Option.none =
      Except.ok ("a", Readout.base ⟨PyVal.nat 1, PyVal.nat 2, PyVal.none, PyVal.nat 1, []⟩,
        [PyVal.nat 3]) ∧
     MultiReadoutBase.regularizer [("a", Readout.base ⟨PyVal.nat 1, PyVal.nat 2,
        PyVal.none, PyVal.nat 1, []⟩)] Option.none "sum" Option.none =
      Except.ok ("a", Readout.base ⟨PyVal.nat 1, PyVal.nat 2, PyVal.none, PyVal.nat 1, []⟩,
        "sum", Option.none)) ∧
    (MultiReadoutBase.forward [("a", Readout.base ⟨PyVal.nat 1, PyVal.nat 2,
        PyVal.none, PyVal.nat 1, []⟩), ("b", Readout.clone ⟨"a", 1, 0⟩)]
        [PyVal.nat 3] Option.none = Except.error (PyError.keyError "None") ∧
     MultiReadoutBase.regularizer [("a", Readout.base ⟨PyVal.nat 1, PyVal.nat 2,
        PyVal.none, PyVal.nat 1, []⟩), ("b", Readout.clone ⟨"a", 1, 0⟩)]
        Option.none "sum" Option.none = Except.error (PyError.keyError "None")) :=
  c2_dispatch_no_key "a" (Readout.base ⟨PyVal.nat 1, PyVal.nat 2, PyVal.none, PyVal.nat 1, []⟩)
    [PyVal.nat 3]
    [("a", Readout.base ⟨PyVal.nat 1, PyVal.nat 2, PyVal.none, PyVal.nat 1, []⟩),
     ("b", Readout.clone ⟨"a", 1, 0⟩)] (by decide)

/-- C7: when neither the class-level `_base_readout` attribute nor the
explicit `base_readout` argument supplies a sub-module type, construction
fails with `ValueError("Attribute _base_readout must be set")`; when the class
attribute is set it is authoritative and the argument does not override it. -/
theorem c7_base_readout_resolution {α : Type} (classAttr base_readout : Option α) :
    (classAttr = Option.none → base_readout = Option.none →
      resolve_base_readout classAttr base_readout =
        Except.error (PyError.valueError "Attribute _base_readout must be set")) ∧
    (∀ t : α, classAttr = some t →
      resolve_base_readout classAttr base_readout = Except.ok t) := by
  constructor
  · intro h1 h2
    subst h1
    subst h2
    rfl
  · intro t ht
    subst ht
    rfl

/-- C7 (witness): both neither-set failure and class-attribute precedence over
a differing explicit argument, at concrete readout type names. -/
theorem c7_base_readout_resolution_witness :
    resolve_base_readout (Option.none : Option String) Option.none =
      Except.error (PyError.valueError "Attribute _base_readout must be set") ∧
    resolve_base_readout (some "FullGaussian2d") (some "PointPooled2d") =
      Except.ok "FullGaussian2d" :=
  ⟨(c7_base_readout_resolution Option.none Option.none).1 rfl rfl,
   (c7_base_readout_resolution (some "FullGaussian2d") (some "PointPooled2d")).2
     "FullGaussian2d" rfl⟩

/-- C3 (witness): a concrete two-key sharing setup; the non-anchor key "b"
resolves `shared_transform` to a reference to the anchor readout's
`mu_transform`. -/
theorem c3_shared_transform_resolution_witness :
    MultiReadoutSharedParametersBase.prepare_readout_kwargs ["a"] 1 "b" "a"
        [("grid_mean_predictor", PyVal.dict [("hidden_layers", PyVal.nat 1)]),
         ("grid_mean_predictor_type", PyVal.str "cortex"),
         ("source_grids", PyVal.dict [("a", PyVal.list [PyVal.nat 1]),
           ("b", PyVal.list [PyVal.nat 2])]),
         ("share_transform", PyVal.bool true), ("share_grid", PyVal.bool false)] =
      Except.ok [("grid_mean_predictor", PyVal.dict [("hidden_layers", PyVal.nat 1)]),
        ("source_grids", PyVal.dict [("a", PyVal.list [PyVal.nat 1]),
          ("b", PyVal.list [PyVal.nat 2])]),
        ("source_grid", PyVal.list [PyVal.nat 2]),
        ("shared_transform", PyVal.attrRef "a" "mu_transform")] ∧
    alookup [("grid_mean_predictor", PyVal.dict [("hidden_layers", PyVal.nat 1)]),
        ("source_grids", PyVal.dict [("a", PyVal.list [PyVal.nat 1]),
          ("b", PyVal.list [PyVal.nat 2])]),
        ("source_grid", PyVal.list [PyVal.nat 2]),
        ("shared_transform", PyVal.attrRef "a" "mu_transform")] "shared_transform" =
      some (PyVal.attrRef "a" "mu_transform") :=
  ⟨rfl, c3_shared_transform_resolution ["a"] 1 "b" "a"
    [("grid_mean_predictor", PyVal.dict [("hidden_layers", PyVal.nat 1)]),
     ("grid_mean_predictor_type", PyVal.str "cortex"),
     ("source_grids", PyVal.dict [("a", PyVal.list [PyVal.nat 1]),
       ("b", PyVal.list [PyVal.nat 2])]),
     ("share_transform", PyVal.bool true), ("share_grid", PyVal.bool false)]
    [("grid_mean_predictor", PyVal.dict [("hidden_layers", PyVal.nat 1)]),
     ("source_grids", PyVal.dict [("a", PyVal.list [PyVal.nat 1]),
       ("b", PyVal.list [PyVal.nat 2])]),
     ("source_grid", PyVal.list [PyVal.nat 2]),
     ("shared_transform", PyVal.attrRef "a" "mu_transform")]
    (PyVal.dict [("hidden_layers", PyVal.nat 1)]) (PyVal.bool true)
    rfl rfl (fun h => PyVal.noConfusion h) rfl rfl rfl
    (fun _ => List.Mem.head _)⟩

/-- C4 (witness): a concrete truthy `share_features` setup; the non-anchor key
"b" resolves `shared_features` to a descriptor carrying its own match-id list
and a reference to the anchor readout's `shared_features`. -/
theorem c4_shared_features_resolution_witness :
    MultiReadoutSharedParametersBase.prepare_readout_kwargs ["a"] 1 "b" "a"
        [("share_features", PyVal.bool true),
         ("shared_match_ids", PyVal.dict [("a", PyVal.list [PyVal.nat 1]),
           ("b", PyVal.list [PyVal.nat 2])])] =
      Except.ok [("shared_match_ids", PyVal.dict [("a", PyVal.list [PyVal.nat 1]),
          ("b", PyVal.list [PyVal.nat 2])]),
        ("shared_features", PyVal.dict [("match_ids", PyVal.list [PyVal.nat 2]),
          ("shared_features", PyVal.attrRef "a" "shared_features")])] ∧
    alookup [("shared_match_ids", PyVal.dict [("a", PyVal.list [PyVal.nat 1]),
        ("b", PyVal.list [PyVal.nat 2])]),
      ("shared_features", PyVal.dict [("match_ids", PyVal.list [PyVal.nat 2]),
        ("shared_features", PyVal.attrRef "a" "shared_features")])] "shared_features" =
      some (PyVal.dict [("match_ids", PyVal.list [PyVal.nat 2]),
        ("shared_features", PyVal.attrRef "a" "shared_features")]) :=
  ⟨rfl, (c4_shared_features_resolution ["a"] 1 "b" "a"
    [("share_features", PyVal.bool true),
     ("shared_match_ids", PyVal.dict [("a", PyVal.list [PyVal.nat 1]),
       ("b", PyVal.list [PyVal.nat 2])])]
    [("shared_match_ids", PyVal.dict [("a", PyVal.list [PyVal.nat 1]),
        ("b", PyVal.list [PyVal.nat 2])]),
      ("shared_features", PyVal.dict [("match_ids", PyVal.list [PyVal.nat 2]),
        ("shared_features", PyVal.attrRef "a" "shared_features")])] rfl).1
    (PyVal.bool true) (PyVal.list [PyVal.nat 2])
    [("a", PyVal.list [PyVal.nat 1]), ("b", PyVal.list [PyVal.nat 2])]
    rfl rfl rfl rfl (fun _ => List.Mem.head _)⟩

/-- C5 (witness): a one-key construction with predictor kind "retina" fails
with the `KeyError` naming "retina". -/
theorem c5_unrecognized_predictor_kind_witness :
    buildModules MultiReadoutSharedParametersBase.prepare_readout_kwargs
        ⟨[("a", PyVal.list [PyVal.nat 4])], [("a", PyVal.nat 10)], Option.none, false,
         PyVal.nat 1, [("grid_mean_predictor", PyVal.dict [("hidden_layers", PyVal.nat 1)]),
           ("grid_mean_predictor_type", PyVal.str "retina")]⟩ =
      Except.error (PyError.keyError ("grid mean predictor " ++ "retina" ++ " does not exist")) :=
  c5_unrecognized_predictor_kind
    ⟨[("a", PyVal.list [PyVal.nat 4])], [("a", PyVal.nat 10)], Option.none, false,
     PyVal.nat 1, [("grid_mean_predictor", PyVal.dict [("hidden_layers", PyVal.nat 1)]),
       ("grid_mean_predictor_type", PyVal.str "retina")]⟩
    "a" (PyVal.nat 10) [] (PyVal.dict [("hidden_layers", PyVal.nat 1)]) "retina"
    rfl rfl rfl (fun h => PyVal.noConfusion h) rfl (by decide)

/-- C9 (witness of the amended statement): a concrete resolution consuming the
directives while passing the unrelated option "foo" through unchanged. -/
theorem c9_directives_consumed_witness :
    MultiReadoutSharedParametersBase.prepare_readout_kwargs [] 0 "a" "a"
        [("grid_mean_predictor", PyVal.none), ("share_transform", PyVal.bool false),
         ("share_grid", PyVal.bool false), ("grid_mean_predictor_type", PyVal.str "cortex"),
         ("share_features", PyVal.bool false), ("foo", PyVal.nat 7)] =
      Except.ok [("grid_mean_predictor", PyVal.none), ("foo", PyVal.nat 7),
        ("shared_features", PyVal.none)] ∧
    hasKey [("grid_mean_predictor", PyVal.none), ("foo", PyVal.nat 7),
      ("shared_features", PyVal.none)] "share_transform" = false ∧
    hasKey [("grid_mean_predictor", PyVal.none), ("foo", PyVal.nat 7),
      ("shared_features", PyVal.none)] "share_grid" = false ∧
    hasKey [("grid_mean_predictor", PyVal.none), ("foo", PyVal.nat 7),
      ("shared_features", PyVal.none)] "grid_mean_predictor_type" = false ∧
    hasKey [("grid_mean_predictor", PyVal.none), ("foo", PyVal.nat 7),
      ("shared_features", PyVal.none)] "share_features" = false ∧
    alookup [("grid_mean_predictor", PyVal.none), ("foo", PyVal.nat 7),
      ("shared_features", PyVal.none)] "foo" =
      alookup [("grid_mean_predictor", PyVal.none), ("share_transform", PyVal.bool false),
        ("share_grid", PyVal.bool false), ("grid_mean_predictor_type", PyVal.str "cortex"),
        ("share_features", PyVal.bool false), ("foo", PyVal.nat 7)] "foo" := by
  have H := c9_directives_consumed [] 0 "a" "a"
    [("grid_mean_predictor", PyVal.none), ("share_transform", PyVal.bool false),
     ("share_grid", PyVal.bool false), ("grid_mean_predictor_type", PyVal.str "cortex"),
     ("share_features", PyVal.bool false), ("foo", PyVal.nat 7)]
    [("grid_mean_predictor", PyVal.none), ("foo", PyVal.nat 7),
     ("shared_features", PyVal.none)] rfl
  exact ⟨rfl, (H.1 rfl).1, (H.1 rfl).2.1, (H.1 rfl).2.2, H.2.1,
    H.2.2 "foo" (by decide) (by decide) (by decide) (by decide) (by decide)
      (by decide) (by decide) (by decide)⟩

theorem buildLoop_no_clone (a : BuildArgs) (hclone : a.clone_readout = false) :
    ∀ (ks : List String) (i : Nat) (fdk : String) (orig : Option String) (reg0 : Registry),
    ks.Nodup →
    (∀ k, k ∈ ks → alookup reg0 k = Option.none) →
    (∀ k, k ∈ ks → ∃ mv, meanActivity a.mean_activity_dict k = Except.ok mv) →
    (∀ k, k ∈ ks → ∃ sh, alookup a.in_shape_dict k = some sh) →
    (∀ k, k ∈ ks → ∃ n, alookup a.n_neurons_dict k = some n) →
    ∃ reg, buildLoop MultiReadoutBase.prepare_readout_kwargs a i fdk orig reg0 ks =
        Except.ok reg ∧
      reg.map Prod.fst = reg0.map Prod.fst ++ ks ∧
      (∀ k, k ∉ ks → alookup reg k = alookup reg0 k) ∧
      (∀ k sh n mv, k ∈ ks →
        alookup a.in_shape_dict k = some sh → alookup a.n_neurons_dict k = some n →
        meanActivity a.mean_activity_dict k = Except.ok mv →
        alookup reg k = some (Readout.base ⟨sh, n, mv, a.gamma_readout, a.kwargs⟩)) := by
  intro ks
  induction ks with
  | nil =>
    intro i fdk orig reg0 _ _ _ _ _
    exact ⟨reg0, buildLoop_nil _ _ _ _ _ _, by simp, fun k _ => rfl,
      fun k sh n mv hk => absurd hk (List.not_mem_nil k)⟩
  | cons dk rest ih =>
    intro i fdk orig reg0 hnd hfresh hmean hsh hnn
    obtain ⟨mv0, hmv0⟩ := hmean dk (List.mem_cons_self dk rest)
    obtain ⟨sh0, hsh0⟩ := hsh dk (List.mem_cons_self dk rest)
    obtain ⟨n0, hnn0⟩ := hnn dk (List.mem_cons_self dk rest)
    have hfresh0 : alookup reg0 dk = Option.none := hfresh dk (List.mem_cons_self dk rest)
    have hdknr : dk ∉ rest := (List.nodup_cons.mp hnd).1
    have hreg1 : setKey reg0 dk
        (Readout.base ⟨sh0, n0, mv0, a.gamma_readout, a.kwargs⟩) =
        reg0 ++ [(dk, Readout.base ⟨sh0, n0, mv0, a.gamma_readout, a.kwargs⟩)] :=
      setKey_of_absent _ _ _ hfresh0
    have heq : buildLoop MultiReadoutBase.prepare_readout_kwargs a i fdk orig reg0
        (dk :: rest) =
        buildLoop MultiReadoutBase.prepare_readout_kwargs a (i + 1)
          (if i = 0 then dk else fdk) (some dk)
          (setKey reg0 dk (Readout.base ⟨sh0, n0, mv0, a.gamma_readout, a.kwargs⟩))
          rest := by
      rw [buildLoop_cons, hmv0]
      simp only [MultiReadoutBase.prepare_readout_kwargs]
      rw [if_pos (Or.inr hclone)]
      have hg1 : getItem a.in_shape_dict dk = Except.ok sh0 := by
        unfold getItem
        rw [hsh0]
      have hg2 : getItem a.n_neurons_dict dk = Except.ok n0 := by
        unfold getItem
        rw [hnn0]
      rw [hg1]
      simp only []
      rw [hg2]
    obtain ⟨reg, hrun, hmap, hpres, hpoint⟩ := ih (i + 1) (if i = 0 then dk else fdk)
      (some dk) (setKey reg0 dk (Readout.base ⟨sh0, n0, mv0, a.gamma_readout, a.kwargs⟩))
      (List.nodup_cons.mp hnd).2
      (by
        intro k hk
        rw [hreg1, alookup_append_single_ne _ _ _ _ (by rintro rfl; exact hdknr hk)]
        exact hfresh k (List.mem_cons_of_mem dk hk))
      (fun k hk => hmean k (List.mem_cons_of_mem dk hk))
      (fun k hk => hsh k (List.mem_cons_of_mem dk hk))
      (fun k hk => hnn k (List.mem_cons_of_mem dk hk))
    refine ⟨reg, heq.trans hrun, ?_, ?_, ?_⟩
    · rw [hmap, hreg1]
      simp
    · intro k hk
      have hknr : k ∉ rest := fun hr => hk (List.mem_cons_of_mem dk hr)
      have hkdk : k ≠ dk := fun he => hk (he ▸ List.mem_cons_self dk rest)
      rw [hpres k hknr, hreg1, alookup_append_single_ne _ _ _ _ hkdk]
    · intro k sh n mv hk hsh' hnn' hmv'
      rcases List.mem_cons.mp hk with rfl | hkr
      · obtain rfl : sh0 = sh := Option.some.inj (hsh0.symm.trans hsh')
        obtain rfl : n0 = n := Option.some.inj (hnn0.symm.trans hnn')
        obtain rfl : mv0 = mv := by
          have := hmv0.symm.trans hmv'
          injection this
        rw [hpres k hdknr, hreg1, alookup_append_left _ _ _ hfresh0]
        simp [alookup]
      · exact hpoint k sh n mv hkr hsh' hnn' hmv'

/-- C8: for a registry built with cloning disabled, the construction loop
registers exactly one independently constructed sub-module per dataset key of
`n_neurons_dict`: the registry's keys equal the dataset keys in their supplied
order (so there are exactly N of them, unique), and each key is bound to a
fresh base readout built from its own key's input shape, neuron count and
mean activity (with the shared regularization weight and options). -/
theorem c8_independent_registry (a : BuildArgs)
    (hclone : a.clone_readout = false)
    (hnodup : (a.n_neurons_dict.map Prod.fst).Nodup)
    (hmean : ∀ k, k ∈ a.n_neurons_dict.map Prod.fst →
      ∃ mv, meanActivity a.mean_activity_dict k = Except.ok mv)
    (hsh : ∀ k, k ∈ a.n_neurons_dict.map Prod.fst →
      ∃ sh, alookup a.in_shape_dict k = some sh) :
    ∃ reg, buildModules MultiReadoutBase.prepare_readout_kwargs a = Except.ok reg ∧
      reg.map Prod.fst = a.n_neurons_dict.map Prod.fst ∧
      (∀ k sh n mv, k ∈ a.n_neurons_dict.map Prod.fst →
        alookup a.in_shape_dict k = some sh → alookup a.n_neurons_dict k = some n →
        meanActivity a.mean_activity_dict k = Except.ok mv →
        alookup reg k = some (Readout.base ⟨sh, n, mv, a.gamma_readout, a.kwargs⟩)) := by
  obtain ⟨reg, hrun, hmap, hpres, hpoint⟩ := buildLoop_no_clone a hclone
    (a.n_neurons_dict.map Prod.fst) 0 "" Option.none [] hnodup
    (fun k _ => rfl) hmean hsh (fun k hk => alookup_of_mem_keys _ _ hk)
  exact ⟨reg, hrun, by simpa using hmap,
    fun k sh n mv hk h1 h2 h3 => hpoint k sh n mv hk h1 h2 h3⟩

theorem buildLoop_clone (a : BuildArgs) (hclone : a.clone_readout = true) (k0 : String) :
    ∀ (ks : List String) (i : Nat) (fdk : String) (reg0 : Registry),
    1 ≤ i →
    (∃ r0, alookup reg0 k0 = some r0) →
    ks.Nodup →
    (∀ k, k ∈ ks → alookup reg0 k = Option.none) →
    (∀ k, k ∈ ks → ∃ mv, meanActivity a.mean_activity_dict k = Except.ok mv) →
    buildLoop MultiReadoutBase.prepare_readout_kwargs a i fdk (some k0) reg0 ks =
      Except.ok (reg0 ++ ks.map fun k => (k, Readout.clone ⟨k0, 1, 0⟩)) := by
  intro ks
  induction ks with
  | nil =>
    intro i fdk reg0 _ _ _ _ _
    rw [buildLoop_nil, List.map_nil, List.append_nil]
  | cons dk rest ih =>
    intro i fdk reg0 hi hanchor hnd hfresh hmean
    obtain ⟨r0, hr0⟩ := hanchor
    obtain ⟨mv0, hmv0⟩ := hmean dk (List.mem_cons_self dk rest)
    have hfresh0 : alookup reg0 dk = Option.none := hfresh dk (List.mem_cons_self dk rest)
    have hdknr : dk ∉ rest := (List.nodup_cons.mp hnd).1
    have hk0dk : k0 ≠ dk := by
      rintro rfl
      rw [hr0] at hfresh0
      cases hfresh0
    have hreg1 : setKey reg0 dk (Readout.clone ⟨k0, 1, 0⟩) =
        reg0 ++ [(dk, Readout.clone ⟨k0, 1, 0⟩)] := setKey_of_absent _ _ _ hfresh0
    have heq : buildLoop MultiReadoutBase.prepare_readout_kwargs a i fdk (some k0) reg0
        (dk :: rest) =
        buildLoop MultiReadoutBase.prepare_readout_kwargs a (i + 1)
          (if i = 0 then dk else fdk) (some k0)
          (setKey reg0 dk (Readout.clone ⟨k0, 1, 0⟩)) rest := by
      rw [buildLoop_cons, hmv0]
      simp only [MultiReadoutBase.prepare_readout_kwargs]
      rw [if_neg (by
        rintro (h0 | hc)
        · omega
        · rw [hclone] at hc
          cases hc)]
      rw [if_pos ⟨by omega, hclone⟩]
      try simp only []
      rw [hr0]
    rw [heq, ih (i + 1) (if i = 0 then dk else fdk)
      (setKey reg0 dk (Readout.clone ⟨k0, 1, 0⟩))
      (by omega)
      ⟨r0, by rw [hreg1, alookup_append_single_ne _ _ _ _ hk0dk]; exact hr0⟩
      (List.nodup_cons.mp hnd).2
      (by
        intro k hk
        rw [hreg1, alookup_append_single_ne _ _ _ _ (by rintro rfl; exact hdknr hk)]
        exact hfresh k (List.mem_cons_of_mem dk hk))
      (fun k hk => hmean k (List.mem_cons_of_mem dk hk)), hreg1]
    simp

/-- C6: for a registry built with cloning enabled over at least two dataset
keys, the construction loop registers a freshly constructed base readout for
the first key and, for every later key, a `ClonedReadout` wrapper holding a
back-reference to the first key's sub-module with only its own scale and
offset — so every later key's underlying weight-owning readout is the first
key's. -/
theorem c6_clone_registry (a : BuildArgs) (hclone : a.clone_readout = true)
    (k0 : String) (n0 : PyVal) (nn1 : String × PyVal) (nnrest : List (String × PyVal))
    (sh0 mv0 : PyVal)
    (hnn : a.n_neurons_dict = (k0, n0) :: nn1 :: nnrest)
    (hnodup : (a.n_neurons_dict.map Prod.fst).Nodup)
    (hmean : ∀ k, k ∈ a.n_neurons_dict.map Prod.fst →
      ∃ mv, meanActivity a.mean_activity_dict k = Except.ok mv)
    (hsh0 : alookup a.in_shape_dict k0 = some sh0)
    (hmv0 : meanActivity a.mean_activity_dict k0 = Except.ok mv0) :
    ∃ reg, buildModules MultiReadoutBase.prepare_readout_kwargs a = Except.ok reg ∧
      reg = (k0, Readout.base ⟨sh0, n0, mv0, a.gamma_readout, a.kwargs⟩) ::
        ((nn1 :: nnrest).map Prod.fst).map (fun k => (k, Readout.clone ⟨k0, 1, 0⟩)) ∧
      (∀ k, k ∈ (nn1 :: nnrest).map Prod.fst →
        alookup reg k = some (Readout.clone ⟨k0, 1, 0⟩) ∧
        underlying reg k = underlying reg k0 ∧
        underlying reg k0 = some ⟨sh0, n0, mv0, a.gamma_readout, a.kwargs⟩) := by
  have hkeys : a.n_neurons_dict.map Prod.fst = k0 :: (nn1 :: nnrest).map Prod.fst := by
    rw [hnn]
    rfl
  rw [hkeys] at hnodup hmean
  have hk0nr : k0 ∉ (nn1 :: nnrest).map Prod.fst := (List.nodup_cons.mp hnodup).1
  have hg2 : getItem a.n_neurons_dict k0 = Except.ok n0 := by
    unfold getItem
    rw [hnn]
    simp [alookup]
  have hg1 : getItem a.in_shape_dict k0 = Except.ok sh0 := by
    unfold getItem
    rw [hsh0]
  have hstep : buildModules MultiReadoutBase.prepare_readout_kwargs a =
      buildLoop MultiReadoutBase.prepare_readout_kwargs a 1 k0 (some k0)
        [(k0, Readout.base ⟨sh0, n0, mv0, a.gamma_readout, a.kwargs⟩)]
        ((nn1 :: nnrest).map Prod.fst) := by
    unfold buildModules
    rw [hkeys, buildLoop_cons, hmv0]
    simp only [MultiReadoutBase.prepare_readout_kwargs]
    rw [if_pos (Or.inl trivial), hg1]
    simp only []
    rw [hg2]
    rfl
  have hrun := buildLoop_clone a hclone k0 ((nn1 :: nnrest).map Prod.fst) 1 k0
    [(k0, Readout.base ⟨sh0, n0, mv0, a.gamma_readout, a.kwargs⟩)]
    (by omega)
    ⟨Readout.base ⟨sh0, n0, mv0, a.gamma_readout, a.kwargs⟩, by simp [alookup]⟩
    (List.nodup_cons.mp hnodup).2
    (by
      intro k hk
      have : k ≠ k0 := by
        rintro rfl
        exact hk0nr hk
      simp [alookup, Ne.symm this])
    (fun k hk => hmean k (List.mem_cons_of_mem k0 hk))
  refine ⟨(k0, Readout.base ⟨sh0, n0, mv0, a.gamma_readout, a.kwargs⟩) ::
      ((nn1 :: nnrest).map Prod.fst).map (fun k => (k, Readout.clone ⟨k0, 1, 0⟩)),
    ?_, rfl, ?_⟩
  · rw [hstep, hrun]
    rfl
  · intro k hk
    have hkne : k ≠ k0 := by
      rintro rfl
      exact hk0nr hk
    have hlk : alookup ((k0, Readout.base ⟨sh0, n0, mv0, a.gamma_readout, a.kwargs⟩) ::
        ((nn1 :: nnrest).map Prod.fst).map (fun key => (key, Readout.clone ⟨k0, 1, 0⟩))) k =
        some (Readout.clone ⟨k0, 1, 0⟩) := by
      simp only [alookup, if_neg (Ne.symm hkne)]
      exact alookup_map_pair _ _ _ hk
    have hlk0 : alookup ((k0, Readout.base ⟨sh0, n0, mv0, a.gamma_readout, a.kwargs⟩) ::
        ((nn1 :: nnrest).map Prod.fst).map (fun key => (key, Readout.clone ⟨k0, 1, 0⟩))) k0 =
        some (Readout.base ⟨sh0, n0, mv0, a.gamma_readout, a.kwargs⟩) := by
      simp [alookup]
    refine ⟨hlk, ?_, ?_⟩
    · unfold underlying
      rw [hlk]
      simp only []
      rw [hlk0]
    · unfold underlying
      rw [hlk0]

/-- Concrete constructor arguments for the no-cloning registry witness: two
dataset keys with per-key shapes, neuron counts and mean activities. -/
def twoKeyArgs : BuildArgs :=
  ⟨[("a", PyVal.nat 1), ("b", PyVal.nat 2)],
   [("a", PyVal.nat 10), ("b", PyVal.nat 20)],
   some [("a", PyVal.nat 3), ("b", PyVal.nat 4)],
   false, PyVal.nat 1, [("foo", PyVal.nat 7)]⟩

/-- C8 (witness): the two-key no-cloning construction succeeds with one
independently constructed sub-module per key. -/
theorem c8_independent_registry_witness :
    twoKeyArgs.clone_readout = false ∧
    (∃ reg, buildModules MultiReadoutBase.prepare_readout_kwargs twoKeyArgs =
        Except.ok reg ∧
      reg.map Prod.fst = twoKeyArgs.n_neurons_dict.map Prod.fst ∧
      (∀ k sh n mv, k ∈ twoKeyArgs.n_neurons_dict.map Prod.fst →
        alookup twoKeyArgs.in_shape_dict k = some sh →
        alookup twoKeyArgs.n_neurons_dict k = some n →
        meanActivity twoKeyArgs.mean_activity_dict k = Except.ok mv →
        alookup reg k = some (Readout.base
          ⟨sh, n, mv, twoKeyArgs.gamma_readout, twoKeyArgs.kwargs⟩))) :=
  ⟨rfl, c8_independent_registry twoKeyArgs rfl (by decide)
    (by
      intro k hk
      simp only [twoKeyArgs, List.map_cons, List.map_nil, List.mem_cons,
        List.not_mem_nil, or_false] at hk
      rcases hk with rfl | rfl
      · exact ⟨PyVal.nat 3, rfl⟩
      · exact ⟨PyVal.nat 4, rfl⟩)
    (by
      intro k hk
      simp only [twoKeyArgs, List.map_cons, List.map_nil, List.mem_cons,
        List.not_mem_nil, or_false] at hk
      rcases hk with rfl | rfl
      · exact ⟨PyVal.nat 1, rfl⟩
      · exact ⟨PyVal.nat 2, rfl⟩)⟩

/-- Concrete constructor arguments for the cloning registry witness: two
dataset keys, cloning enabled, no mean-activity map. -/
def cloneArgs : BuildArgs :=
  ⟨[("a", PyVal.nat 1)], [("a", PyVal.nat 10), ("b", PyVal.nat 20)],
   Option.none, true, PyVal.nat 1, []⟩

/-- C6 (witness): the two-key cloning construction registers a fresh base
readout under "a" and a clone wrapper back-referencing "a" under "b", whose
underlying readout is "a"'s. -/
theorem c6_clone_registry_witness :
    ∃ reg, buildModules MultiReadoutBase.prepare_readout_kwargs cloneArgs =
        Except.ok reg ∧
      reg = ("a", Readout.base ⟨PyVal.nat 1, PyVal.nat 10, PyVal.none, PyVal.nat 1, []⟩) ::
        (([("b", PyVal.nat 20)] : List (String × PyVal)).map Prod.fst).map
          (fun k => (k, Readout.clone ⟨"a", 1, 0⟩)) ∧
      (∀ k, k ∈ ([("b", PyVal.nat 20)] : List (String × PyVal)).map Prod.fst →
        alookup reg k = some (Readout.clone ⟨"a", 1, 0⟩) ∧
        underlying reg k = underlying reg "a" ∧
        underlying reg "a" = some ⟨PyVal.nat 1, PyVal.nat 10, PyVal.none, PyVal.nat 1, []⟩) :=
  c6_clone_registry cloneArgs rfl "a" (PyVal.nat 10) ("b", PyVal.nat 20) []
    (PyVal.nat 1) PyVal.none rfl (by decide) (fun k _ => ⟨PyVal.none, rfl⟩) rfl rfl
